import Mathlib

/-!
Verification of the deferred-pagination overlay and slide-assembler functions of
the `claude-tutorial` repository (three near-duplicate reportlab scripts:
`create_presentation.py`, `create_interactive_presentation.py`,
`create_interactive_presentation_v2.py`).

The `NumberedCanvas` class and its methods `showPage`, `save` and
`draw_page_number` are identical in all three scripts; they are embedded once.
Machine state of the underlying `reportlab.pdfgen.canvas.Canvas` is embedded as
the record `Canvas`: the mutable instance dictionary (`_pageNumber` and the
current page's accumulated draw operations `_code`), the snapshot list
`_saved_page_states`, the pages already committed to the PDF document, and a
flag marking that the document has been sealed.  The base-class behaviour used
by the scripts is: `_pageNumber` starts at 1, `_startPage` increments it and
clears the current page's operations, `Canvas.showPage` commits the current
operations as one output page and then calls `_startPage`, and `Canvas.save`
first runs `self.showPage()` when the current operation list is non-empty
(which dispatches to the overriding `NumberedCanvas.showPage`) and then writes
the document out, sealing it.
-/

namespace CCTut

/-- One inch in points, reportlab's `inch` unit. -/
def inch : ℚ := 72

/-- The fixed 16:9 page geometry `PAGESIZE = (11.0*inch, 6.1875*inch)`. -/
def PAGESIZE : ℚ × ℚ := (11.0 * inch, 6.1875 * inch)

/-- Color constant `PRIMARY_BLUE = HexColor('#0076CE')`. -/
def PRIMARY_BLUE : String := "#0076CE"

/-- Color constant `MED_GRAY = HexColor('#999999')`. -/
def MED_GRAY : String := "#999999"

/-- A primitive canvas draw operation, as issued by `draw_page_number`. -/
inductive DrawOp where
  | setStrokeColor (color : String)
  | setLineWidth (w : ℚ)
  | line (x1 y1 x2 y2 : ℚ)
  | setFont (fontName : String) (size : ℚ)
  | setFillColor (color : String)
  | drawRightString (x y : ℚ) (text : String)
deriving DecidableEq, Repr

/-- The part of the canvas's `__dict__` that the scripts read and write:
`_pageNumber` and the current page's operation list `_code`.  `showPage`
snapshots it with `dict(self.__dict__)` and `save` restores it with
`self.__dict__.update(state)`.  (The snapshot also holds the reference to the
shared `_saved_page_states` list and to the output document; being a shallow
copy it aliases the very same objects, so restoring it does not roll either of
them back — they are therefore kept outside this record.) -/
structure CanvasDict where
  pageNumber : Nat
  code : List DrawOp
deriving DecidableEq, Repr

/-- The embedded canvas machine state. -/
structure Canvas where
  dict : CanvasDict
  savedPageStates : List CanvasDict
  output : List (List DrawOp)
  finished : Bool
deriving DecidableEq, Repr

/-- A freshly constructed canvas: reportlab initialises `_pageNumber = 1`
with no operations yet, no snapshots, no committed pages. -/
def Canvas.init : Canvas :=
  { dict := { pageNumber := 1, code := [] }
    savedPageStates := []
    output := []
    finished := false }

/-- Append one draw operation to the current page (what each reportlab
drawing method does to `self._code`). -/
def Canvas.emit (c : Canvas) (op : DrawOp) : Canvas :=
  { c with dict := { c.dict with code := c.dict.code ++ [op] } }

/-- Base-class `Canvas._startPage`: advance `_pageNumber` and start a blank
page. -/
def Canvas.startPage (c : Canvas) : Canvas :=
  { c with dict := { pageNumber := c.dict.pageNumber + 1, code := [] } }

/-- Base-class `canvas.Canvas.showPage`: commit the current page's operations
to the document output, then `_startPage`. -/
def Canvas.baseShowPage (c : Canvas) : Canvas :=
  Canvas.startPage { c with output := c.output ++ [c.dict.code] }

/-- `NumberedCanvas.showPage` (lines 35-37 of `create_presentation.py`):
snapshot the instance dictionary into `_saved_page_states` and start a fresh
page; nothing is committed to the output. -/
def NumberedCanvas.showPage (c : Canvas) : Canvas :=
  Canvas.startPage { c with savedPageStates := c.savedPageStates ++ [c.dict] }

/-- Base-class `canvas.Canvas.save`: if the current page has pending
operations, run `self.showPage()` first — on a `NumberedCanvas` instance this
dispatches to the overriding `NumberedCanvas.showPage` — then write the
document to the file, sealing it. -/
def Canvas.baseSave (c : Canvas) : Canvas :=
  let c := if c.dict.code = [] then c else NumberedCanvas.showPage c
  { c with finished := true }

/-- `NumberedCanvas.draw_page_number` (lines 47-57 of
`create_presentation.py`): draw the footer rule and the right-aligned
"Page d of d" string for the current `_pageNumber` and the supplied total. -/
def NumberedCanvas.draw_page_number (c : Canvas) (page_count : Nat) : Canvas :=
  let c := c.emit (.setStrokeColor PRIMARY_BLUE)
  let c := c.emit (.setLineWidth 2)
  let c := c.emit (.line (0.5 * inch) (0.4 * inch) (PAGESIZE.1 - 0.5 * inch) (0.4 * inch))
  let c := c.emit (.setFont "Helvetica" 9)
  let c := c.emit (.setFillColor MED_GRAY)
  let page := "Page " ++ toString c.dict.pageNumber ++ " of " ++ toString page_count
  c.emit (.drawRightString (PAGESIZE.1 - 0.5 * inch) (0.25 * inch) page)

/-- `NumberedCanvas.save` (lines 39-45 of `create_presentation.py`): take the
total from the snapshot list, then for each saved state in original order
restore it, draw the footer, and commit the page through the base class's
`showPage`; finally call the base class's `save`. -/
def NumberedCanvas.save (c : Canvas) : Canvas :=
  let num_pages := c.savedPageStates.length
  let c' := c.savedPageStates.foldl
    (fun acc state =>
      Canvas.baseShowPage (NumberedCanvas.draw_page_number { acc with dict := state } num_pages))
    c
  Canvas.baseSave c'

/-- The footer text `"Page %d of %d" % (self._pageNumber, page_count)`. -/
def footerString (pageNumber page_count : Nat) : String :=
  "Page " ++ toString pageNumber ++ " of " ++ toString page_count

/-- The six draw operations `draw_page_number` appends for a page numbered
`i` out of `n`. -/
def footerOps (i n : Nat) : List DrawOp :=
  [ .setStrokeColor PRIMARY_BLUE
  , .setLineWidth 2
  , .line (0.5 * inch) (0.4 * inch) (PAGESIZE.1 - 0.5 * inch) (0.4 * inch)
  , .setFont "Helvetica" 9
  , .setFillColor MED_GRAY
  , .drawRightString (PAGESIZE.1 - 0.5 * inch) (0.25 * inch) (footerString i n) ]

/-- Texts drawn at the footer's right-aligned anchor point
`(PAGESIZE[0] - 0.5*inch, 0.25*inch)` by an operation list. -/
def footerDraws (page : List DrawOp) : List String :=
  page.filterMap (fun op =>
    match op with
    | .drawRightString x y s =>
        if x = PAGESIZE.1 - 0.5 * inch ∧ y = 0.25 * inch then some s else none
    | _ => none)

theorem draw_page_number_eq (c : Canvas) (n : Nat) :
    NumberedCanvas.draw_page_number c n =
      { c with dict := { c.dict with code := c.dict.code ++ footerOps c.dict.pageNumber n } } := by
  simp [NumberedCanvas.draw_page_number, Canvas.emit, footerOps, footerString]

theorem save_loop_output (n : Nat) (states : List CanvasDict) : ∀ c : Canvas,
    (states.foldl
      (fun acc state =>
        Canvas.baseShowPage (NumberedCanvas.draw_page_number { acc with dict := state } n))
      c).output =
      c.output ++ states.map (fun st => st.code ++ footerOps st.pageNumber n) := by
  induction states with
  | nil => intro c; simp
  | cons st rest ih =>
      intro c
      rw [List.foldl_cons, ih]
      simp [draw_page_number_eq, Canvas.baseShowPage, Canvas.startPage]

theorem save_loop_code (n : Nat) (states : List CanvasDict) (c : Canvas) :
    (states.foldl
      (fun acc state =>
        Canvas.baseShowPage (NumberedCanvas.draw_page_number { acc with dict := state } n))
      c).dict.code = if states = [] then c.dict.code else [] := by
  induction states generalizing c with
  | nil => simp
  | cons st rest ih =>
      rw [List.foldl_cons, ih]
      by_cases h : rest = [] <;>
        simp [h, draw_page_number_eq, Canvas.baseShowPage, Canvas.startPage]

/-- Sealing through the base class never commits a page: either the pending
operation list is empty, or the overridden `showPage` runs, which snapshots
instead of committing. -/
theorem baseSave_output (c : Canvas) : (Canvas.baseSave c).output = c.output := by
  by_cases h : c.dict.code = [] <;>
    simp [Canvas.baseSave, h, NumberedCanvas.showPage, Canvas.startPage]

/-- Central replay lemma: `NumberedCanvas.save` extends the committed output
by exactly one page per saved state, in snapshot order, each equal to the
snapshot's operations followed by a footer for the snapshot's page number and
the constant total `_saved_page_states.length`. -/
theorem save_output (c : Canvas) :
    (NumberedCanvas.save c).output =
      c.output ++ c.savedPageStates.map
        (fun st => st.code ++ footerOps st.pageNumber c.savedPageStates.length) := by
  unfold NumberedCanvas.save
  rw [baseSave_output, save_loop_output]

theorem footerDraws_append (a b : List DrawOp) :
    footerDraws (a ++ b) = footerDraws a ++ footerDraws b := by
  simp [footerDraws]

theorem footerDraws_footerOps (i n : Nat) :
    footerDraws (footerOps i n) = [footerString i n] := by
  simp [footerDraws, footerOps]

/-- Draw a list of content operations onto the current page, one drawing call
after the other. -/
def Canvas.drawContent (c : Canvas) (ops : List DrawOp) : Canvas :=
  ops.foldl Canvas.emit c

/-- The document-build loop as driven by the platypus engine with
`canvasmaker=NumberedCanvas`: starting from a fresh canvas, draw each page's
content and signal page completion through the overridden `showPage`. -/
def runPages (pages : List (List DrawOp)) : Canvas :=
  pages.foldl (fun c p => NumberedCanvas.showPage (c.drawContent p)) Canvas.init

/-- The snapshot list produced by capturing the given page contents starting
at page number `k`. -/
def numberStates (k : Nat) : List (List DrawOp) → List CanvasDict
  | [] => []
  | p :: ps => { pageNumber := k, code := p } :: numberStates (k + 1) ps

theorem drawContent_eq (ops : List DrawOp) : ∀ c : Canvas,
    c.drawContent ops =
      { c with dict := { c.dict with code := c.dict.code ++ ops } } := by
  induction ops with
  | nil => intro c; simp [Canvas.drawContent]
  | cons op rest ih =>
      intro c
      show (c.emit op).drawContent rest = _
      rw [ih]
      simp [Canvas.emit]

theorem numberStates_length (ps : List (List DrawOp)) : ∀ k,
    (numberStates k ps).length = ps.length := by
  induction ps with
  | nil => intro k; rfl
  | cons p rest ih => intro k; simp [numberStates, ih]

theorem runPages_loop (pages : List (List DrawOp)) : ∀ c : Canvas, c.dict.code = [] →
    (pages.foldl (fun c p => NumberedCanvas.showPage (c.drawContent p)) c).savedPageStates
        = c.savedPageStates ++ numberStates c.dict.pageNumber pages ∧
    (pages.foldl (fun c p => NumberedCanvas.showPage (c.drawContent p)) c).output = c.output ∧
    (pages.foldl (fun c p => NumberedCanvas.showPage (c.drawContent p)) c).dict.code = [] := by
  induction pages with
  | nil => intro c hc; simp [numberStates, hc]
  | cons p rest ih =>
      intro c hc
      rw [List.foldl_cons]
      have h := ih (NumberedCanvas.showPage (c.drawContent p)) (by
        simp [drawContent_eq, NumberedCanvas.showPage, Canvas.startPage])
      rcases h with ⟨h1, h2, h3⟩
      refine ⟨?_, ?_, h3⟩
      · rw [h1]
        simp [drawContent_eq, NumberedCanvas.showPage, Canvas.startPage, hc, numberStates]
      · rw [h2]
        simp [drawContent_eq, NumberedCanvas.showPage, Canvas.startPage]

theorem runPages_saved (pages : List (List DrawOp)) :
    (runPages pages).savedPageStates = numberStates 1 pages ∧
    (runPages pages).output = [] := by
  have h := runPages_loop pages Canvas.init rfl
  exact ⟨h.1, h.2.1⟩

theorem numberStates_commit_footers (n : Nat) (ps : List (List DrawOp)) : ∀ k,
    (∀ p ∈ ps, footerDraws p = []) →
    (numberStates k ps).map
        (fun st => footerDraws (st.code ++ footerOps st.pageNumber n)) =
      (List.range' k ps.length).map (fun i => [footerString i n]) := by
  induction ps with
  | nil => intro k _; rfl
  | cons p rest ih =>
      intro k hclean
      have hp : footerDraws p = [] := hclean p (by simp)
      have hrest : ∀ q ∈ rest, footerDraws q = [] := fun q hq => hclean q (by simp [hq])
      simp only [numberStates, List.length_cons, List.range'_succ, List.map_cons]
      rw [ih (k + 1) hrest]
      simp [footerDraws_append, footerDraws_footerOps, hp]

/-- C1: for every deck of N pages built through `NumberedCanvas` (pages
containing no draw of their own at the footer anchor), the finalized output
has one footer draw per page, sequential `"Page 1 of N"` .. `"Page N of N"`
in output order, all showing the very same total N. -/
theorem claimC1_footers_sequential (pages : List (List DrawOp))
    (hclean : ∀ p ∈ pages, footerDraws p = []) :
    (NumberedCanvas.save (runPages pages)).output.map footerDraws =
      (List.range' 1 pages.length).map (fun i => [footerString i pages.length]) := by
  rw [save_output, (runPages_saved pages).1, (runPages_saved pages).2, List.nil_append,
    List.map_map, numberStates_length]
  exact numberStates_commit_footers pages.length pages 1 hclean

/-- A three-page deck: title page, one content page, one closing page. -/
def threePageDeck : List (List DrawOp) :=
  [ [DrawOp.setFont "Helvetica" 48, DrawOp.setFillColor "#003E7E"]
  , [DrawOp.setFont "Helvetica" 28, DrawOp.setFillColor "#5B5B5B"]
  , [DrawOp.setFont "Helvetica" 48, DrawOp.setFillColor "#003E7E"] ]

theorem claimC1_footers_sequential_witness :
    (∀ p ∈ threePageDeck, footerDraws p = []) ∧
    (NumberedCanvas.save (runPages threePageDeck)).output.map footerDraws =
      [["Page 1 of 3"], ["Page 2 of 3"], ["Page 3 of 3"]] :=
  ⟨by decide, (claimC1_footers_sequential threePageDeck (by decide)).trans (by decide)⟩

/-- C2: `save` replays and commits the captured states in exactly capture
order: the committed pages extend the previous output by the snapshot
sequence itself (each snapshot's operations plus its footer), one output page
per snapshot — identity permutation, none dropped, none duplicated. -/
theorem claimC2_replay_in_capture_order (c : Canvas) :
    (NumberedCanvas.save c).output =
      c.output ++ c.savedPageStates.map
        (fun st => st.code ++ footerOps st.pageNumber c.savedPageStates.length) ∧
    (NumberedCanvas.save c).output.length =
      c.output.length + c.savedPageStates.length := by
  refine ⟨save_output c, ?_⟩
  rw [save_output c]
  simp

/-- C3: at the moment `save` runs, the total displayed in every footer of the
replayed pages is the length of `_saved_page_states`, the same value for all
pages of the document. -/
theorem claimC3_total_is_snapshot_count (c : Canvas)
    (h : ∀ st ∈ c.savedPageStates, footerDraws st.code = []) :
    ((NumberedCanvas.save c).output.drop c.output.length).map footerDraws =
      c.savedPageStates.map
        (fun st => [footerString st.pageNumber c.savedPageStates.length]) := by
  rw [save_output, List.drop_left, List.map_map]
  apply List.map_congr_left
  intro st hst
  simp [Function.comp, footerDraws_append, footerDraws_footerOps, h st hst]

/-- A small accumulated canvas: two captured page states, nothing committed
yet. -/
def demoCanvas : Canvas :=
  { dict := { pageNumber := 3, code := [] }
    savedPageStates :=
      [ { pageNumber := 1, code := [DrawOp.setFont "Helvetica" 48] }
      , { pageNumber := 2, code := [] } ]
    output := []
    finished := false }

theorem claimC3_total_is_snapshot_count_witness :
    (∀ st ∈ demoCanvas.savedPageStates, footerDraws st.code = []) ∧
    ((NumberedCanvas.save demoCanvas).output.drop demoCanvas.output.length).map footerDraws =
      [["Page 1 of 2"], ["Page 2 of 2"]] :=
  ⟨by decide, (claimC3_total_is_snapshot_count demoCanvas (by decide)).trans (by decide)⟩

/-- C4: each `NumberedCanvas.showPage` call appends a full copy of the
current renderer dictionary to `_saved_page_states`, resets the renderer to a
blank page with the next page number, and commits nothing: the output and the
sealed flag are untouched, so the overlay stays in accumulating mode. -/
theorem claimC4_showPage_accumulates (c : Canvas) :
    (NumberedCanvas.showPage c).savedPageStates = c.savedPageStates ++ [c.dict] ∧
    (NumberedCanvas.showPage c).dict.code = [] ∧
    (NumberedCanvas.showPage c).dict.pageNumber = c.dict.pageNumber + 1 ∧
    (NumberedCanvas.showPage c).output = c.output ∧
    (NumberedCanvas.showPage c).finished = c.finished := by
  simp [NumberedCanvas.showPage, Canvas.startPage]

/-!
Slide-assembler embedding.  A reportlab platypus flowable appended to the
shared `story` list is embedded as a `Flowable`; the Python `story.append(x)`
calls of each slide function translate to `story ++ [x]` in call order, and
each function returns the grown story.  Table style command tuples are carried
as plain strings, since no script ever reads them back.
-/

/-- A platypus flowable descriptor appended to the story list. -/
inductive Flowable where
  | paragraph (markup : String) (style : String)
  | spacer (width height : ℚ)
  | pageBreak
  | table (data : List (List Flowable)) (colWidths : List ℚ) (style : List String)

/-- A Python value that may appear in a `content_items` list.  The scripts
feed strings and (string, list-of-strings) tuples; arbitrary tuples, lists
and numbers are representable so that the dynamic `isinstance` dispatch of
`create_content_slide` is modelled on the values it can actually meet. -/
inductive Item where
  | str (s : String)
  | tuple (elems : List Item)
  | list (elems : List Item)
  | int (n : Int)

mutual

/-- Python `repr` of an item, used by f-string interpolation on non-string
values. -/
def Item.pyRepr : Item → String
  | .str s => "\x27" ++ s ++ "\x27"
  | .int n => toString n
  | .tuple [e] => "(" ++ Item.pyRepr e ++ ",)"
  | .tuple es => "(" ++ pyReprSep es ++ ")"
  | .list es => "[" ++ pyReprSep es ++ "]"

/-- Comma-separated reprs of a list of items. -/
def pyReprSep : List Item → String
  | [] => ""
  | [e] => Item.pyRepr e
  | e :: es => Item.pyRepr e ++ ", " ++ pyReprSep es

end

/-- Python `str()` as applied by f-string interpolation: a string passes
through verbatim, anything else shows its repr. -/
def Item.pyStr : Item → String
  | .str s => s
  | v => Item.pyRepr v

/-- Python indexing `t[i]` on a tuple's element list: raises `IndexError`
when the index is out of range. -/
def pyIndex (es : List Item) (i : Nat) : Except String Item :=
  match es.get? i with
  | some v => Except.ok v
  | none => Except.error "IndexError: tuple index out of range"

/-- Python iteration `for sub in v`: lists and tuples yield their elements, a
string yields its characters as one-character strings, a number raises
`TypeError`. -/
def pyIterate : Item → Except String (List Item)
  | .list es => Except.ok es
  | .tuple es => Except.ok es
  | .str s => Except.ok (s.toList.map (fun ch => Item.str (String.singleton ch)))
  | .int _ => Except.error "TypeError: object is not iterable"

/-- True for a plain string item. -/
def Item.isStr : Item → Bool
  | .str _ => true
  | _ => false

/-- Documented shape of a content item: a plain string, or a
(heading, list-of-strings) pair. -/
def Item.documented : Item → Bool
  | .str _ => true
  | .tuple [Item.str _, Item.list subs] => subs.all Item.isStr
  | _ => false

/-- True for items that match neither `isinstance(item, str)` nor
`isinstance(item, tuple)` and therefore fall through both branches of
`create_content_slide`. -/
def Item.skipped : Item → Bool
  | .str _ => false
  | .tuple _ => false
  | _ => true

namespace Pres

/-- Markup of the content-slide / two-column slide title paragraph. -/
def contentTitleMarkup (title : String) : String :=
  "<font color=\"#003E7E\" size=\"28\"><b>" ++ title ++ "</b></font>"

/-- Markup of a plain top-level bullet line, font size 14. -/
def bulletMarkup (item : String) : String :=
  "<font color=\"#5B5B5B\" size=\"14\">• " ++ item ++ "</font>"

/-- Markup of the bold heading of a (heading, sub-items) pair, font size
14. -/
def headingMarkup (heading : String) : String :=
  "<font color=\"#5B5B5B\" size=\"14\"><b>" ++ heading ++ "</b></font>"

/-- Markup of one nested sub-bullet line: three-space secondary indent, the
hollow bullet, and the smaller font size 12. -/
def subBulletMarkup (sub : String) : String :=
  "<font color=\"#666666\" size=\"12\">   ◦ " ++ sub ++ "</font>"

/-- The flowables the `create_content_slide` loop body appends for one
content item (`create_presentation.py` lines 131-153): a bulleted paragraph
and spacer for a string; for a tuple the bold heading `item[0]` with its
spacer, one indented sub-bullet paragraph and spacer per element of `item[1]`
in order, and a trailing spacer; any other value matches neither
`isinstance` branch and contributes nothing.  A failing `item[...]` access or
a non-iterable `item[1]` surfaces as the Python exception. -/
def itemBlocks (item : Item) : Except String (List Flowable) :=
  match item with
  | .str s =>
      Except.ok [ Flowable.paragraph (bulletMarkup s) "BodyText"
                , Flowable.spacer 1 (0.15 * inch) ]
  | .tuple es =>
      match pyIndex es 0 with
      | Except.error e => Except.error e
      | Except.ok h =>
        match pyIndex es 1 with
        | Except.error e => Except.error e
        | Except.ok second =>
          match pyIterate second with
          | Except.error e => Except.error e
          | Except.ok subs =>
              Except.ok
                ([ Flowable.paragraph (headingMarkup h.pyStr) "BodyText"
                 , Flowable.spacer 1 (0.1 * inch) ] ++
                 subs.flatMap (fun sub =>
                   [ Flowable.paragraph (subBulletMarkup sub.pyStr) "BodyText"
                   , Flowable.spacer 1 (0.08 * inch) ]) ++
                 [ Flowable.spacer 1 (0.1 * inch) ])
  | _ => Except.ok []

/-- The `for item in content_items` loop of `create_content_slide`,
threading the growing story; the first exception aborts the call. -/
def renderItems (story : List Flowable) : List Item → Except String (List Flowable)
  | [] => Except.ok story
  | item :: rest =>
      match itemBlocks item with
      | Except.error e => Except.error e
      | Except.ok bs => renderItems (story ++ bs) rest

/-- `create_content_slide` (`create_presentation.py` lines 120-155): slide
title, spacer, the rendered content items, and the terminating `PageBreak`. -/
def create_content_slide (story : List Flowable) (title : String)
    (content_items : List Item) : Except String (List Flowable) :=
  match renderItems
      (story ++ [ Flowable.paragraph (contentTitleMarkup title) "Heading1"
                , Flowable.spacer 1 (0.3 * inch) ])
      content_items with
  | Except.error e => Except.error e
  | Except.ok story => Except.ok (story ++ [Flowable.pageBreak])

/-- `create_title_slide` (`create_presentation.py` lines 59-83). -/
def create_title_slide (story : List Flowable) : List Flowable :=
  let story := story ++ [Flowable.spacer 1 (1.5 * inch)]
  let story := story ++
    [Flowable.paragraph "<font color=\"#003E7E\" size=\"48\"><b>Claude Code</b></font>" "Title"]
  let story := story ++ [Flowable.spacer 1 (0.2 * inch)]
  let story := story ++
    [Flowable.paragraph "<font color=\"#0076CE\" size=\"32\">Tutorial & Best Practices</font>" "Title"]
  let story := story ++ [Flowable.spacer 1 (0.3 * inch)]
  let story := story ++
    [Flowable.paragraph "<font color=\"#5B5B5B\" size=\"16\">AI-First Development for Modern Software Teams</font>" "Title"]
  story ++ [Flowable.pageBreak]

/-- Markup of the section-divider title paragraph. -/
def sectionMarkup (title : String) : String :=
  "<font color=\"#FFFFFF\" size=\"38\"><b>" ++ title ++ "</b></font>"

/-- The style command tuples of the section-divider table. -/
def sectionTableStyle : List String :=
  [ "BACKGROUND (0,0) (-1,-1) #0076CE"
  , "ALIGN (0,0) (-1,-1) CENTER"
  , "VALIGN (0,0) (-1,-1) MIDDLE"
  , "TOPPADDING (0,0) (-1,-1) 40"
  , "BOTTOMPADDING (0,0) (-1,-1) 40"
  , "LEFTPADDING (0,0) (-1,-1) 20"
  , "RIGHTPADDING (0,0) (-1,-1) 20" ]

/-- `create_section_slide` (`create_presentation.py` lines 85-118): spacer,
one-cell table with the blue background carrying the section title
paragraph, page break. -/
def create_section_slide (story : List Flowable) (title : String) : List Flowable :=
  let story := story ++ [Flowable.spacer 1 (1.8 * inch)]
  let section_text := Flowable.paragraph (sectionMarkup title) "SectionContent"
  let table := Flowable.table [[section_text]] [9.5 * inch] sectionTableStyle
  let story := story ++ [table]
  story ++ [Flowable.pageBreak]

/-- `create_two_column_slide` (`create_presentation.py` lines 157-188):
title, spacer, a two-cell table whose cells accumulate a header line and one
checkmark / bullet line per item, page break. -/
def create_two_column_slide (story : List Flowable) (title left_title : String)
    (left_items : List String) (right_title : String) (right_items : List String) :
    List Flowable :=
  let slide_title := Flowable.paragraph (contentTitleMarkup title) "Heading1"
  let story := story ++ [slide_title, Flowable.spacer 1 (0.3 * inch)]
  let left_content := left_items.foldl
    (fun acc item =>
      acc ++ "<font color=\"#5B5B5B\" size=\"12\">✓ " ++ item ++ "</font><br/><br/>")
    ("<font color=\"#0076CE\" size=\"16\"><b>" ++ left_title ++ "</b></font><br/><br/>")
  let right_content := right_items.foldl
    (fun acc item =>
      acc ++ "<font color=\"#5B5B5B\" size=\"12\">• " ++ item ++ "</font><br/><br/>")
    ("<font color=\"#0076CE\" size=\"16\"><b>" ++ right_title ++ "</b></font><br/><br/>")
  let data := [[ Flowable.paragraph left_content "BodyText"
               , Flowable.paragraph right_content "BodyText" ]]
  let table := Flowable.table data [4.5 * inch, 4.5 * inch]
    [ "VALIGN (0,0) (-1,-1) TOP"
    , "LEFTPADDING (0,0) (-1,-1) 20"
    , "RIGHTPADDING (0,0) (-1,-1) 20" ]
  let story := story ++ [table]
  story ++ [Flowable.pageBreak]

end Pres

/-- Python `code.split('\n')`: split at every newline, keeping empty pieces;
the empty string yields `[""]`. -/
def pySplitLinesAux (sep : Char) : List Char → List (List Char)
  | [] => [[]]
  | c :: rest =>
      match pySplitLinesAux sep rest with
      | [] => [[]]
      | grp :: grps => if c = sep then [] :: grp :: grps else (c :: grp) :: grps

/-- Python `code.split('\n')` on a string. -/
def pySplitLines (s : String) : List String :=
  (pySplitLinesAux (Char.ofNat 10) s.toList).map (fun cs => String.mk cs)

namespace Inter

/-- Markup of the code-slide title paragraph (size 24). -/
def codeTitleMarkup (title : String) : String :=
  "<font color=\"#003E7E\" size=\"24\"><b>" ++ title ++ "</b></font>"

/-- Markup of the language label paragraph. -/
def langMarkup (language : String) : String :=
  "<font color=\"#0076CE\" size=\"12\"><b>" ++ language ++ "</b></font>"

/-- Markup of one Courier code line paragraph. -/
def codeLineMarkup (line : String) : String :=
  "<font color=\"#5B5B5B\" size=\"9\" face=\"Courier\">" ++ line ++ "</font>"

/-- `create_code_slide` of `create_interactive_presentation.py`
(lines 151-168): slide title and spacer, language label and spacer, then one
Courier paragraph and spacer per line of `code.split('\n')[:20]` in input
order, and the terminating page break. -/
def create_code_slide (story : List Flowable) (title language code : String) :
    List Flowable :=
  let story := story ++
    [ Flowable.paragraph (codeTitleMarkup title) "Heading1"
    , Flowable.spacer 1 (0.2 * inch) ]
  let story := story ++
    [ Flowable.paragraph (langMarkup language) "BodyText"
    , Flowable.spacer 1 (0.1 * inch) ]
  let code_lines := pySplitLines code
  let story := (code_lines.take 20).foldl
    (fun st line =>
      st ++ [ Flowable.paragraph (codeLineMarkup line) "BodyText"
            , Flowable.spacer 1 (0.05 * inch) ])
    story
  story ++ [Flowable.pageBreak]

end Inter

/-- One record of the global `ALL_PROMPTS` list of
`create_interactive_presentation_v2.py`: page index, exercise title, prompt
text and expected-result text. -/
structure PromptRecord where
  page : Nat
  title : String
  prompt : String
  expected : String
deriving DecidableEq, Repr

namespace InterV2

/-- Markup of the hands-on slide title; the glyphs before "Hands-On" are the
literal characters present in the source file. -/
def handsOnTitleMarkup (title : String) : String :=
  "<font color=\"#003E7E\" size=\"28\"><b>üî® Hands-On: " ++
    title ++ "</b></font>"

/-- Markup of the expected-result bullet line; the glyphs before the text are
the literal characters present in the source file. -/
def expectedMarkup (expected_result : String) : String :=
  "<font color=\"#5B5B5B\" size=\"12\">‚Ä¢ " ++ expected_result ++ "</font>"

/-- `create_hands_on_slide` of `create_interactive_presentation_v2.py`
(lines 128-173): append the (page, title, prompt, expected) record to the
global `ALL_PROMPTS` list, then append the slide's flowables — title,
instruction, the prompt with newlines turned into `<br/>` inside a Courier
box, the expected-result line — and the page break to the story.  Returns
the grown story and the grown prompt list. -/
def create_hands_on_slide (story : List Flowable) (allPrompts : List PromptRecord)
    (title prompt expected_result : String) (page_num : Nat) :
    List Flowable × List PromptRecord :=
  let allPrompts := allPrompts ++
    [{ page := page_num, title := title, prompt := prompt, expected := expected_result }]
  let story := story ++
    [ Flowable.paragraph (handsOnTitleMarkup title) "Heading1"
    , Flowable.spacer 1 (0.2 * inch) ]
  let story := story ++
    [ Flowable.paragraph
        "<font color=\"#0076CE\" size=\"16\"><b>YOUR PROMPT (See prompts.md):</b></font>"
        "BodyText"
    , Flowable.spacer 1 (0.15 * inch) ]
  let prompt_html := prompt.replace "\n" "<br/>"
  let story := story ++
    [ Flowable.paragraph
        ("<font color=\"#5B5B5B\" size=\"10\" face=\"Courier\">" ++ prompt_html ++ "</font>")
        "PromptBox"
    , Flowable.spacer 1 (0.2 * inch) ]
  let story := story ++
    [ Flowable.paragraph
        "<font color=\"#0076CE\" size=\"14\"><b>What You Should See:</b></font>" "BodyText"
    , Flowable.spacer 1 (0.1 * inch) ]
  let story := story ++ [ Flowable.paragraph (expectedMarkup expected_result) "BodyText" ]
  (story ++ [Flowable.pageBreak], allPrompts)

/-- `export_prompts_to_markdown` of `create_interactive_presentation_v2.py`
(lines 202-216): the full text written to `prompts.md` — the fixed header,
then for each recorded prompt in list order the page heading, the fenced
prompt, the expected result, and the horizontal rule, each written exactly as
the `f.write` calls emit them.  `exportStep` is the body of the
`for item in ALL_PROMPTS` loop. -/
def exportStep (f : String) (item : PromptRecord) : String :=
  let f := f ++ "## Page " ++ toString item.page ++ ": " ++ item.title ++ "\n\n"
  let f := f ++ "**PROMPT:**\n```\n"
  let f := f ++ item.prompt
  let f := f ++ "\n```\n\n"
  let f := f ++ "**EXPECTED RESULT:**\n"
  let f := f ++ item.expected ++ "\n\n"
  f ++ "---\n\n"

def export_prompts_to_markdown (allPrompts : List PromptRecord) : String :=
  let f := "# Claude Code Tutorial - Workshop Prompts\n\n"
  let f := f ++ "Copy and paste these prompts during the workshop exercises.\n\n"
  let f := f ++ "---\n\n"
  allPrompts.foldl exportStep f

/-- The fixed header the export writes before any section, as the spec
describes output file 2. -/
def exportHeader : String :=
  "# Claude Code Tutorial - Workshop Prompts\n\n" ++
  "Copy and paste these prompts during the workshop exercises.\n\n" ++
  "---\n\n"

/-- Modelled from the spec: one headed section of the exported side-car
document as section 6 describes it — a page-number heading, the prompt text
byte-for-byte inside a fenced block, the verbatim expected-result text, and
the horizontal-rule delimiter. -/
def promptSection (r : PromptRecord) : String :=
  "## Page " ++ toString r.page ++ ": " ++ r.title ++ "\n\n" ++
  "**PROMPT:**\n```\n" ++ r.prompt ++ "\n```\n\n" ++
  "**EXPECTED RESULT:**\n" ++ r.expected ++ "\n\n" ++
  "---\n\n"

/-- Concatenation of the headed sections of a prompt list, in list order. -/
def sectionsText : List PromptRecord → String
  | [] => ""
  | r :: rs => promptSection r ++ sectionsText rs

end InterV2

/-!
Derived structure lemmas for the assembler functions, and the claim
theorems C5-C10.
-/

/-- Concatenation of the per-item flowables, propagating the first failure —
the loop of `create_content_slide` separated from the story threading. -/
def Pres.concatItemBlocks : List Item → Except String (List Flowable)
  | [] => Except.ok []
  | item :: rest =>
      match Pres.itemBlocks item with
      | Except.error e => Except.error e
      | Except.ok bs =>
          match Pres.concatItemBlocks rest with
          | Except.error e => Except.error e
          | Except.ok more => Except.ok (bs ++ more)

theorem Pres.renderItems_eq (items : List Item) : ∀ story : List Flowable,
    Pres.renderItems story items =
      (Pres.concatItemBlocks items).map (fun bs => story ++ bs) := by
  induction items with
  | nil => intro story; simp [Pres.renderItems, Pres.concatItemBlocks, Except.map]
  | cons it rest ih =>
      intro story
      simp only [Pres.renderItems, Pres.concatItemBlocks]
      cases hit : Pres.itemBlocks it with
      | error e => simp [Except.map]
      | ok bs =>
          dsimp only
          rw [ih]
          cases hrest : Pres.concatItemBlocks rest with
          | error e => simp [Except.map]
          | ok more => simp [Except.map, List.append_assoc]

theorem Pres.create_content_slide_eq (story : List Flowable) (title : String)
    (items : List Item) :
    Pres.create_content_slide story title items =
      (Pres.concatItemBlocks items).map (fun bs =>
        story ++
        [ Flowable.paragraph (Pres.contentTitleMarkup title) "Heading1"
        , Flowable.spacer 1 (0.3 * inch) ] ++ bs ++ [Flowable.pageBreak]) := by
  unfold Pres.create_content_slide
  rw [Pres.renderItems_eq]
  cases h : Pres.concatItemBlocks items with
  | error e => simp [Except.map]
  | ok bs => simp [Except.map, List.append_assoc]

theorem flatMap_over_map_str (subs : List String) (g : Item → List Flowable) :
    (subs.map Item.str).flatMap g = subs.flatMap (fun s => g (Item.str s)) := by
  induction subs with
  | nil => rfl
  | cons s rest ih => simp [ih]

/-- C6: for a (heading, sub-items) content pair, `create_content_slide`
renders the bold heading, then one sub-bullet per sub-item in input order,
each carrying the secondary-indent markup and the smaller size-12 font
(top-level bullets use size 14); for an empty sub-item list the heading is
still emitted and the rendered sub-bullet lines are exactly the empty
flatMap, i.e. zero of them. -/
theorem claimC6_nested_pair_rendering (story : List Flowable) (title h : String)
    (subs : List String) :
    Pres.create_content_slide story title
        [Item.tuple [Item.str h, Item.list (subs.map Item.str)]] =
      Except.ok (story ++
        [ Flowable.paragraph (Pres.contentTitleMarkup title) "Heading1"
        , Flowable.spacer 1 (0.3 * inch)
        , Flowable.paragraph (Pres.headingMarkup h) "BodyText"
        , Flowable.spacer 1 (0.1 * inch) ] ++
        subs.flatMap (fun sub =>
          [ Flowable.paragraph (Pres.subBulletMarkup sub) "BodyText"
          , Flowable.spacer 1 (0.08 * inch) ]) ++
        [ Flowable.spacer 1 (0.1 * inch), Flowable.pageBreak ]) := by
  rw [Pres.create_content_slide_eq]
  simp [Pres.concatItemBlocks, Pres.itemBlocks, pyIndex, pyIterate,
    flatMap_over_map_str, Item.pyStr, Except.map, List.append_assoc]

theorem itemBlocks_documented (it : Item) (h : Item.documented it = true) :
    ∃ bs, Pres.itemBlocks it = Except.ok bs := by
  unfold Item.documented at h
  split at h
  · exact ⟨_, rfl⟩
  · exact ⟨_, rfl⟩
  · exact absurd h (by simp)

theorem concatItemBlocks_documented (items : List Item)
    (h : items.all Item.documented = true) :
    ∃ bs, Pres.concatItemBlocks items = Except.ok bs := by
  induction items with
  | nil => exact ⟨[], rfl⟩
  | cons it rest ih =>
      rw [List.all_cons, Bool.and_eq_true] at h
      obtain ⟨b1, hb1⟩ := itemBlocks_documented it h.1
      obtain ⟨b2, hb2⟩ := ih h.2
      exact ⟨b1 ++ b2, by simp [Pres.concatItemBlocks, hb1, hb2]⟩

theorem Pres.create_title_slide_frame (story : List Flowable) :
    Pres.create_title_slide story = story ++ Pres.create_title_slide [] := by
  simp [Pres.create_title_slide]

theorem Pres.create_section_slide_frame (story : List Flowable) (title : String) :
    Pres.create_section_slide story title = story ++ Pres.create_section_slide [] title := by
  simp [Pres.create_section_slide]

theorem Pres.create_two_column_slide_frame (story : List Flowable)
    (title left_title : String) (left_items : List String)
    (right_title : String) (right_items : List String) :
    Pres.create_two_column_slide story title left_title left_items right_title right_items =
      story ++
        Pres.create_two_column_slide [] title left_title left_items right_title right_items := by
  simp [Pres.create_two_column_slide]

theorem InterV2.create_hands_on_slide_frame (story : List Flowable)
    (ap : List PromptRecord) (title prompt expected_result : String) (page_num : Nat) :
    (InterV2.create_hands_on_slide story ap title prompt expected_result page_num).1 =
      story ++ (InterV2.create_hands_on_slide [] ap title prompt expected_result page_num).1 := by
  simp [InterV2.create_hands_on_slide]

theorem code_foldl_eq (lines : List String) : ∀ st : List Flowable,
    lines.foldl
      (fun st line =>
        st ++ [ Flowable.paragraph (Inter.codeLineMarkup line) "BodyText"
              , Flowable.spacer 1 (0.05 * inch) ])
      st =
      st ++ lines.flatMap (fun line =>
        [ Flowable.paragraph (Inter.codeLineMarkup line) "BodyText"
        , Flowable.spacer 1 (0.05 * inch) ]) := by
  induction lines with
  | nil => intro st; simp
  | cons l rest ih => intro st; rw [List.foldl_cons, ih]; simp [List.append_assoc]

theorem Inter.create_code_slide_eq (story : List Flowable) (title language code : String) :
    Inter.create_code_slide story title language code =
      story ++
        [ Flowable.paragraph (Inter.codeTitleMarkup title) "Heading1"
        , Flowable.spacer 1 (0.2 * inch)
        , Flowable.paragraph (Inter.langMarkup language) "BodyText"
        , Flowable.spacer 1 (0.1 * inch) ] ++
        ((pySplitLines code).take 20).flatMap (fun line =>
          [ Flowable.paragraph (Inter.codeLineMarkup line) "BodyText"
          , Flowable.spacer 1 (0.05 * inch) ]) ++
        [Flowable.pageBreak] := by
  simp only [Inter.create_code_slide]
  rw [code_foldl_eq]
  simp [List.append_assoc]

theorem Inter.create_code_slide_frame (story : List Flowable) (title language code : String) :
    Inter.create_code_slide story title language code =
      story ++ Inter.create_code_slide [] title language code := by
  rw [Inter.create_code_slide_eq, Inter.create_code_slide_eq]
  simp

/-- C7: each block-append operation returns the prior story unchanged as a
prefix, extended by that slide's descriptors, and the appended descriptors
end with the explicit page-break marker. -/
theorem claimC7_append_only_with_pagebreak (story : List Flowable)
    (ap : List PromptRecord) (title left_title right_title language code : String)
    (prompt expected : String) (left_items right_items : List String)
    (items : List Item) (page_num : Nat)
    (hdoc : items.all Item.documented = true) :
    (∃ tail, Pres.create_title_slide story = story ++ tail ∧
      tail.getLast? = some Flowable.pageBreak) ∧
    (∃ tail, Pres.create_section_slide story title = story ++ tail ∧
      tail.getLast? = some Flowable.pageBreak) ∧
    (∃ tail, Pres.create_content_slide story title items = Except.ok (story ++ tail) ∧
      tail.getLast? = some Flowable.pageBreak) ∧
    (∃ tail, Pres.create_two_column_slide story title left_title left_items
        right_title right_items = story ++ tail ∧
      tail.getLast? = some Flowable.pageBreak) ∧
    (∃ tail, (InterV2.create_hands_on_slide story ap title prompt expected page_num).1 =
        story ++ tail ∧
      tail.getLast? = some Flowable.pageBreak) ∧
    (∃ tail, Inter.create_code_slide story title language code = story ++ tail ∧
      tail.getLast? = some Flowable.pageBreak) := by
  obtain ⟨bs, hbs⟩ := concatItemBlocks_documented items hdoc
  refine ⟨⟨Pres.create_title_slide [], Pres.create_title_slide_frame story, rfl⟩,
    ⟨Pres.create_section_slide [] title, Pres.create_section_slide_frame story title, rfl⟩,
    ⟨([ Flowable.paragraph (Pres.contentTitleMarkup title) "Heading1"
      , Flowable.spacer 1 (0.3 * inch) ] ++ bs) ++ [Flowable.pageBreak], ?_,
      List.getLast?_concat _⟩,
    ⟨Pres.create_two_column_slide [] title left_title left_items right_title right_items,
      Pres.create_two_column_slide_frame story title left_title left_items right_title
        right_items, rfl⟩,
    ⟨(InterV2.create_hands_on_slide [] ap title prompt expected page_num).1,
      InterV2.create_hands_on_slide_frame story ap title prompt expected page_num, rfl⟩,
    ⟨([ Flowable.paragraph (Inter.codeTitleMarkup title) "Heading1"
      , Flowable.spacer 1 (0.2 * inch)
      , Flowable.paragraph (Inter.langMarkup language) "BodyText"
      , Flowable.spacer 1 (0.1 * inch) ] ++
      ((pySplitLines code).take 20).flatMap (fun line =>
        [ Flowable.paragraph (Inter.codeLineMarkup line) "BodyText"
        , Flowable.spacer 1 (0.05 * inch) ])) ++ [Flowable.pageBreak], ?_,
      List.getLast?_concat _⟩⟩
  · rw [Pres.create_content_slide_eq, hbs]
    simp [Except.map, List.append_assoc]
  · rw [Inter.create_code_slide_eq]
    simp [List.append_assoc]

/-- Content items for the closed witnesses: one plain string and one
documented (heading, sub-items) pair. -/
def demoItems : List Item :=
  [ Item.str "Introduction to Claude Code"
  , Item.tuple [Item.str "Core Benefits:", Item.list [Item.str "Fast", Item.str "Consistent"]] ]

theorem claimC7_append_only_with_pagebreak_witness :
    demoItems.all Item.documented = true ∧
    ((∃ tail, Pres.create_title_slide [] = [] ++ tail ∧
      tail.getLast? = some Flowable.pageBreak) ∧
    (∃ tail, Pres.create_section_slide [] "Introduction" = [] ++ tail ∧
      tail.getLast? = some Flowable.pageBreak) ∧
    (∃ tail, Pres.create_content_slide [] "Introduction" demoItems =
        Except.ok ([] ++ tail) ∧
      tail.getLast? = some Flowable.pageBreak) ∧
    (∃ tail, Pres.create_two_column_slide [] "Introduction" "DO" ["a"] "DONT" ["b"] =
        [] ++ tail ∧
      tail.getLast? = some Flowable.pageBreak) ∧
    (∃ tail, (InterV2.create_hands_on_slide [] [] "Introduction" "p" "e" 4).1 =
        [] ++ tail ∧
      tail.getLast? = some Flowable.pageBreak) ∧
    (∃ tail, Inter.create_code_slide [] "Introduction" "Go" "package main" = [] ++ tail ∧
      tail.getLast? = some Flowable.pageBreak)) :=
  ⟨by rfl,
   claimC7_append_only_with_pagebreak [] [] "Introduction" "DO" "DONT" "Go" "package main"
     "p" "e" ["a"] ["b"] demoItems 4 (by rfl)⟩

/-- C8: on content items of the documented shapes every slide-assembler call
returns normally — `create_content_slide` yields a result instead of a
Python exception, and `create_code_slide` returns the appended story for
every code string. -/
theorem claimC8_no_failure_on_documented (story story2 : List Flowable)
    (title language code : String) (items : List Item)
    (hdoc : items.all Item.documented = true) :
    (∃ out, Pres.create_content_slide story title items = Except.ok out) ∧
    (∃ tail, Inter.create_code_slide story2 title language code = story2 ++ tail) := by
  obtain ⟨bs, hbs⟩ := concatItemBlocks_documented items hdoc
  refine
    ⟨⟨story ++
        [ Flowable.paragraph (Pres.contentTitleMarkup title) "Heading1"
        , Flowable.spacer 1 (0.3 * inch) ] ++ bs ++ [Flowable.pageBreak], ?_⟩,
     ⟨Inter.create_code_slide [] title language code,
      Inter.create_code_slide_frame story2 title language code⟩⟩
  rw [Pres.create_content_slide_eq, hbs]
  rfl

theorem claimC8_no_failure_on_documented_witness :
    demoItems.all Item.documented = true ∧
    ((∃ out, Pres.create_content_slide [] "Agenda" demoItems = Except.ok out) ∧
    (∃ tail, Inter.create_code_slide [] "Agenda" "Go" "package main\nfunc main()" =
      [] ++ tail)) :=
  ⟨by rfl,
   claimC8_no_failure_on_documented [] [] "Agenda" "Go" "package main\nfunc main()"
     demoItems (by rfl)⟩

theorem itemBlocks_skipped (it : Item) (h : Item.skipped it = true) :
    Pres.itemBlocks it = Except.ok [] := by
  cases it with
  | str s => simp [Item.skipped] at h
  | tuple es => simp [Item.skipped] at h
  | list es => rfl
  | int n => rfl

theorem concatItemBlocks_skip (bad : Item) (hbad : Item.skipped bad = true)
    (pre post : List Item) :
    Pres.concatItemBlocks (pre ++ bad :: post) = Pres.concatItemBlocks (pre ++ post) := by
  induction pre with
  | nil =>
      simp only [List.nil_append, Pres.concatItemBlocks, itemBlocks_skipped bad hbad]
      cases h : Pres.concatItemBlocks post <;> simp
  | cons it rest ih =>
      simp only [List.cons_append, Pres.concatItemBlocks, List.append_eq, ih]

/-- C9: a content item that is neither a string nor a tuple contributes no
block and raises no error — the call renders exactly as if the item were
absent, so every surrounding string or tuple item is still rendered. -/
theorem claimC9_skips_unrecognized (story : List Flowable) (title : String)
    (pre post : List Item) (bad : Item) (hbad : Item.skipped bad = true) :
    Pres.create_content_slide story title (pre ++ bad :: post) =
      Pres.create_content_slide story title (pre ++ post) := by
  rw [Pres.create_content_slide_eq, Pres.create_content_slide_eq,
    concatItemBlocks_skip bad hbad]

theorem claimC9_skips_unrecognized_witness :
    Item.skipped (Item.int 3) = true ∧
    Pres.create_content_slide [] "Agenda" ([Item.str "a"] ++ Item.int 3 :: [Item.str "b"]) =
      Pres.create_content_slide [] "Agenda" ([Item.str "a"] ++ [Item.str "b"]) :=
  ⟨by rfl, claimC9_skips_unrecognized [] "Agenda" [Item.str "a"] [Item.str "b"]
    (Item.int 3) (by rfl)⟩

/-- A code string of `n` newline-separated lines (n ≥ 1). -/
def codeNLines : Nat → String
  | 0 => ""
  | 1 => "line"
  | n + 2 => codeNLines (n + 1) ++ "\nline"

/-- C10: `create_code_slide` of `create_interactive_presentation.py` renders
one Courier paragraph (with its spacer) per line of `code.split('\n')[:20]`
in input order and silently drops all lines past the 20th; concretely a
25-line code string yields a story of 4 header flowables, 20 paragraph-spacer
pairs and the page break (45 flowables), while an 8-line string yields all 8
pairs (21 flowables). -/
theorem claimC10_code_truncated_to_20 (story : List Flowable)
    (title language code : String) :
    (Inter.create_code_slide story title language code =
      story ++
        [ Flowable.paragraph (Inter.codeTitleMarkup title) "Heading1"
        , Flowable.spacer 1 (0.2 * inch)
        , Flowable.paragraph (Inter.langMarkup language) "BodyText"
        , Flowable.spacer 1 (0.1 * inch) ] ++
        ((pySplitLines code).take 20).flatMap (fun line =>
          [ Flowable.paragraph (Inter.codeLineMarkup line) "BodyText"
          , Flowable.spacer 1 (0.05 * inch) ]) ++
        [Flowable.pageBreak]) ∧
    (pySplitLines (codeNLines 25)).length = 25 ∧
    (Inter.create_code_slide [] "Example" "Go" (codeNLines 25)).length = 45 ∧
    (pySplitLines (codeNLines 8)).length = 8 ∧
    (Inter.create_code_slide [] "Example" "Go" (codeNLines 8)).length = 21 :=
  ⟨Inter.create_code_slide_eq story title language code,
   by decide, by decide, by decide, by decide⟩

theorem export_loop (l : List PromptRecord) : ∀ init : String,
    l.foldl InterV2.exportStep init = init ++ InterV2.sectionsText l := by
  induction l with
  | nil => intro init; simp [InterV2.sectionsText]
  | cons r rs ih =>
      intro init
      rw [List.foldl_cons, ih]
      simp [InterV2.sectionsText, InterV2.promptSection, InterV2.exportStep,
        String.append_assoc]

theorem export_eq (l : List PromptRecord) :
    InterV2.export_prompts_to_markdown l =
      InterV2.exportHeader ++ InterV2.sectionsText l := by
  unfold InterV2.export_prompts_to_markdown
  rw [export_loop]
  simp [InterV2.exportHeader, String.append_assoc]

theorem handsOn_fold_records (blocks : List (Nat × String × String × String)) :
    ∀ start : List Flowable × List PromptRecord,
    (blocks.foldl
      (fun acc b => InterV2.create_hands_on_slide acc.1 acc.2 b.2.1 b.2.2.1 b.2.2.2 b.1)
      start).2 =
      start.2 ++ blocks.map (fun b =>
        { page := b.1, title := b.2.1, prompt := b.2.2.1, expected := b.2.2.2 }) := by
  induction blocks with
  | nil => intro start; simp
  | cons b rest ih =>
      intro start
      rw [List.foldl_cons, ih]
      simp [InterV2.create_hands_on_slide, List.append_assoc]

set_option maxRecDepth 8192 in
/-- C5: appending hands-on blocks records their (page, title, prompt,
expected) tuples in append order, and exporting writes the fixed header
followed by exactly one headed section per appended block in that order —
page-number heading, the prompt byte-for-byte inside the fenced block, the
verbatim expected text, then the horizontal-rule delimiter; a concrete
two-block run produces exactly the expected byte sequence. -/
theorem claimC5_export_prompt_sections
    (blocks : List (Nat × String × String × String)) (story0 : List Flowable) :
    (InterV2.export_prompts_to_markdown
        ((blocks.foldl
          (fun acc b => InterV2.create_hands_on_slide acc.1 acc.2 b.2.1 b.2.2.1 b.2.2.2 b.1)
          (story0, [])).2) =
      InterV2.exportHeader ++
        InterV2.sectionsText (blocks.map (fun b =>
          { page := b.1, title := b.2.1, prompt := b.2.2.1, expected := b.2.2.2 }))) ∧
    InterV2.export_prompts_to_markdown
        ((([ (5, "First Session", "Create a README\nwith sections", "A README.md file appears")
           , (9, "Write Tests", "Add unit tests", "Tests pass") ] :
            List (Nat × String × String × String)).foldl
          (fun acc b => InterV2.create_hands_on_slide acc.1 acc.2 b.2.1 b.2.2.1 b.2.2.2 b.1)
          ([], [])).2) =
      "# Claude Code Tutorial - Workshop Prompts\n\nCopy and paste these prompts during the workshop exercises.\n\n---\n\n## Page 5: First Session\n\n**PROMPT:**\n```\nCreate a README\nwith sections\n```\n\n**EXPECTED RESULT:**\nA README.md file appears\n\n---\n\n## Page 9: Write Tests\n\n**PROMPT:**\n```\nAdd unit tests\n```\n\n**EXPECTED RESULT:**\nTests pass\n\n---\n\n" := by
  constructor
  · rw [handsOn_fold_records, export_eq]
    rfl
  · decide

end CCTut
